import Mathlib

/-!
Shallow embedding of `src/tls_client/update_shared_libraries.py`
(RainbowPlug/tls-client).

The Python module has five parts, each embedded below as executable Lean
definitions translated line-by-line from the source:

* `get_dependency_filename` — the platform → artifact-filename table;
* `read_local_version` / `save_local_version` — the line-oriented
  `version.txt` record store (Python dicts are modelled as association
  lists `List (String × Option String)`, because the `Etag` entry can
  carry Python `None`);
* `get_latest_release` — request-header construction and the
  304 / zero-assets / error result logic (the HTTP response itself is an
  input of type `Response`);
* `download_file` — the backup / temp-file / move dance over a small
  filesystem state holding the three paths the function touches;
* `should_check_update` and `update_lib` — the throttle check and the
  orchestrator.  Effects (network fetch, downloads, writes of
  `version.txt`) are recorded in an `UpdateOutcome` structure.

Wall-clock time enters the Python code in two forms: `datetime` values
compared against a 24 h interval (modelled as `Int` seconds together with
an abstract ISO-8601 parser `parseTs : String → Option Int`), and the
ISO string `datetime.now(timezone.utc).isoformat()` written into the
record (modelled as an input `nowIso : String`).
-/

set_option maxRecDepth 8000

namespace TlsClientUpdate

/-! ### Platform resolver (`get_dependency_filename`, lines 41–66) -/

/-- The platform → filename table of `get_dependency_filename`.  The host
probe results `platform.system().lower()` / `platform.machine().lower()`
are inputs; the Python `raise ValueError(...)` branch becomes
`Except.error` carrying the same message. -/
def get_dependency_filename (system machine : String) : Except String String :=
  if system = "windows" then
    if machine = "amd64" ∨ machine = "x86_64" then
      Except.ok "tls-client-windows-amd64.dll"
    else if machine = "x86" ∨ machine = "i386" then
      Except.ok "tls-client-windows-386.dll"
    else
      Except.ok "tls-client-windows-amd64.dll"
  else if system = "linux" then
    if machine = "amd64" ∨ machine = "x86_64" then
      Except.ok "tls-client-linux-amd64.so"
    else if machine = "arm64" ∨ machine = "aarch64" then
      Except.ok "tls-client-linux-arm64.so"
    else
      Except.ok "tls-client-linux-amd64.so"
  else if system = "darwin" then
    if machine = "arm64" ∨ machine = "aarch64" then
      Except.ok "tls-client-darwin-arm64.dylib"
    else
      Except.ok "tls-client-darwin-amd64.dylib"
  else
    Except.error ("Unsupported platform: " ++ system)

/-! ### Python `str.splitlines(False)` restricted to the line-break
characters it recognises.  `save_local_version` only ever writes `'\n'`,
but `read_local_version` faces arbitrary file contents, so the embedding
keeps the full break-character set and the `"\r\n"` pairing rule. -/

/-- The line-boundary characters of Python `str.splitlines`. -/
def isLineBreak (c : Char) : Bool :=
  c = '\n' ∨ c = '\r' ∨ c = '\x0b' ∨ c = '\x0c' ∨
  c = '\x1c' ∨ c = '\x1d' ∨ c = '\x1e' ∨ c = '\u0085' ∨
  c = ' ' ∨ c = ' '

/-- Prepend a character to the first segment of a split result. -/
def consHead (c : Char) : List (List Char) → List (List Char)
  | [] => [[c]]
  | h :: t => (c :: h) :: t

/-- Core of `splitlines`: split at every line break, treating `"\r\n"`
as a single break; a trailing break still yields a final empty segment
here (removed by the wrapper, as Python does). -/
def splitLinesCore : List Char → List (List Char)
  | [] => [[]]
  | [c] => if isLineBreak c then [[], []] else [[c]]
  | c :: c2 :: cs =>
    if c = '\r' ∧ c2 = '\n' then [] :: splitLinesCore cs
    else if isLineBreak c then [] :: splitLinesCore (c2 :: cs)
    else consHead c (splitLinesCore (c2 :: cs))

/-- Python `s.splitlines(False)`: empty string gives `[]`, and no final
empty segment is produced for a trailing line break. -/
def splitlines (s : String) : List String :=
  if s.data = [] then []
  else if (s.data.getLast?.map isLineBreak).getD false then
    ((splitLinesCore s.data).dropLast).map String.mk
  else
    (splitLinesCore s.data).map String.mk

/-! ### Version store (`read_local_version` lines 102–117,
`save_local_version` lines 120–130) -/

/-- The Python dict returned by `read_local_version`: keys in insertion
order, values `Option String` because the `Etag` value can be `None`. -/
def VDict := List (String × Option String)

instance : DecidableEq VDict := by
  unfold VDict
  infer_instance

/-- Python `k in d`. -/
def keyIn (d : VDict) (k : String) : Bool :=
  d.any (fun kv => kv.1 = k)

/-- Python `d[k]` / `d.get(k)`: the stored value (`none` both for a
missing key and for a stored `None`; `read_local_version`'s dicts always
carry all four keys, see `keyIn_read_dict`). -/
def VDict.get (d : VDict) (k : String) : Option String :=
  match d.find? (fun kv => kv.1 = k) with
  | some kv => kv.2
  | none => none

/-- Lines 108–114: build the dict when the file has at least 3 lines. -/
def linesToDict (lines : List String) : Option VDict :=
  if 3 ≤ lines.length then
    some [("version", some (lines.getD 0 "")),
          ("last_modified", some (lines.getD 1 "")),
          ("last_check", some (lines.getD 2 "")),
          ("Etag", if 4 ≤ lines.length then some (lines.getD 3 "") else none)]
  else
    none

/-- `read_local_version` applied to the contents of an existing
`version.txt`; a `none` result is the "fewer than 3 lines" degrade path
(the absent-file and unreadable-file paths are the `none` of the
`Option String` the callers pass in). -/
def read_local_version (content : String) : Option VDict :=
  linesToDict (splitlines content)

/-- The exact string `save_local_version` writes: three `'\n'`-joined
lines, plus a fourth only when `etag` is truthy (Python `if etag:` skips
both `None` and the empty string). -/
def save_content (version last_modified nowIso : String) (etag : Option String) : String :=
  version ++ "\n" ++ last_modified ++ "\n" ++ nowIso ++
    (match etag with
     | some e => if e = "" then "" else "\n" ++ e
     | none => "")

/-- No character of `s` is a `splitlines` line boundary. -/
def noBreakS (s : String) : Bool :=
  s.data.all (fun c => !(isLineBreak c))

/-! ### Release fetcher (`get_latest_release`, lines 72–99) -/

structure Asset where
  name : String
  browser_download_url : String
deriving DecidableEq, Repr

structure Release where
  tag_name : String
  published_at : Option String
  assets : List Asset
deriving DecidableEq, Repr

/-- What the GitHub endpoint answers: 304, a network/HTTP error
(`requests.RequestException` or a non-2xx status), or a JSON release
body together with the response `Etag` header. -/
inductive Response
  | notModified
  | httpError
  | ok (release : Release) (etag : Option String)
deriving DecidableEq

/-- Lines 74–81: the request headers.  An entry's value is
`Option String` because Python can store `None` in the dict
(`headers['If-None-Match'] = local_version_info['Etag']`). -/
def build_headers (githubToken : Option String) (record : Option VDict) :
    List (String × Option String) :=
  (match githubToken with
   | some t => [("Authorization", some ("Bearer " ++ t))]
   | none => []) ++
  (match record with
   | some d => if keyIn d "Etag" then [("If-None-Match", d.get "Etag")] else []
   | none => [])

structure FetchResult where
  headers : List (String × Option String)
  result : Option (Release × Option String)
deriving DecidableEq

/-- `get_latest_release`: reads `version.txt` (`fileContent`, `none` when
the file is absent), builds the headers, and maps the response to the
Python return value: `None` for 304, for any request error, and for a
release listing zero assets; otherwise the release with the new Etag. -/
def get_latest_release (githubToken : Option String) (fileContent : Option String)
    (resp : Response) : FetchResult :=
  let record := fileContent.bind read_local_version
  let headers := build_headers githubToken record
  let result :=
    match resp with
    | Response.notModified => none
    | Response.httpError => none
    | Response.ok rel etag => if rel.assets.isEmpty then none else some (rel, etag)
  ⟨headers, result⟩

/-! ### Artifact installer (`download_file`, lines 133–165) -/

/-- The slice of the filesystem `download_file` touches: `dest_path` and
its `.backup` / `.tmp` siblings, each either absent or holding bytes. -/
structure FS where
  dest : Option (List Nat)
  backup : Option (List Nat)
  tmp : Option (List Nat)
deriving DecidableEq, Repr

/-- Where (if anywhere) a run of `download_file` fails:
`getFail` = `session.get`/`raise_for_status` raises (before the backup
copy), `streamFail part` = the chunk loop raises after writing `part`,
`moveFail content` = `shutil.move(temp, dest)` raises with the full body
in the temp file, `success content` = no failure. -/
inductive DlEvent
  | getFail
  | streamFail (part : List Nat)
  | moveFail (content : List Nat)
  | success (content : List Nat)
deriving DecidableEq, Repr

/-- Line 142: `shutil.copy2(dest_path, backup_path)` when `dest_path`
exists. -/
def makeBackup (fs : FS) : FS :=
  if fs.dest.isSome then { fs with backup := fs.dest } else fs

/-- Lines 162–164, the `except` handler: `shutil.move(backup_path,
dest_path)` when the backup file exists. -/
def restoreBackup (fs : FS) : FS :=
  match fs.backup with
  | some b => { fs with dest := some b, backup := none }
  | none => fs

/-- `download_file`: returns the Python boolean and the final state of
the three paths.  The chunk write lands in `.tmp`; `shutil.move` onto
`dest` is atomic (it either fully replaces `dest` or raises leaving it
untouched); on success the backup is removed. -/
def download_file (fs : FS) (ev : DlEvent) : Bool × FS :=
  match ev with
  | DlEvent.getFail =>
    (false, restoreBackup fs)
  | DlEvent.streamFail part =>
    let fs1 := makeBackup fs
    let fs2 := { fs1 with tmp := some part }
    (false, restoreBackup fs2)
  | DlEvent.moveFail content =>
    let fs1 := makeBackup fs
    let fs2 := { fs1 with tmp := some content }
    (false, restoreBackup fs2)
  | DlEvent.success content =>
    let fs1 := makeBackup fs
    let fs2 := { fs1 with tmp := some content }
    let fs3 := { fs2 with dest := some content, tmp := none }
    let fs4 := { fs3 with backup := none }
    (true, fs4)

/-! ### Throttle check (`should_check_update`, lines 168–178) -/

/-- `CHECK_INTERVAL = timedelta(hours=24)`, in seconds. -/
def CHECK_INTERVAL_SECONDS : Int := 24 * 60 * 60

/-- `should_check_update`.  `fileContent` is `version.txt`'s contents
(`none` when absent/unreadable); `parseTs` abstracts
`datetime.fromisoformat` followed by subtraction from an aware "now"
(any exception in that `try` block — unparsable or naive timestamp —
is `none`); `now` is the current time in seconds. -/
def should_check_update (parseTs : String → Option Int) (now : Int)
    (fileContent : Option String) : Bool :=
  match fileContent.bind read_local_version with
  | none => true
  | some d =>
    if keyIn d "last_check" = false then true
    else
      match (d.get "last_check").bind parseTs with
      | none => true
      | some t => decide (now - t > CHECK_INTERVAL_SECONDS)

/-! ### Orchestrator (`update_lib`, lines 181–245) -/

/-- Python `s.startswith(p)`, at the character level. -/
def pyStartsWith (s p : String) : Bool :=
  p.data.isPrefixOf s.data

/-- Python `CURRENT_DEPENDENCY_FILENAME.rsplit(".", 1)[0]`. -/
def rsplitStem (s : String) : String :=
  if s.data.contains '.' then
    String.mk (((s.data.reverse.dropWhile (fun c => c ≠ '.')).drop 1).reverse)
  else s

/-- Line 213's condition `local_version_info and latest_version ==
local_version_info.get('version')`. -/
def version_matches (record : Option VDict) (tag : String) : Bool :=
  match record with
  | some d => d.get "version" = some tag
  | none => false

/-- The observable effects of one `update_lib` run: its boolean result,
whether the metadata request was issued, the download URLs passed to
`download_file` in order, the exact `version.txt` content written by
`save_local_version` (if called), and the asset-name list printed by
the "could not find asset" branch (if reached). -/
structure UpdateOutcome where
  success : Bool
  fetched : Bool
  downloads : List String
  saved : Option String
  loggedAssets : Option (List String)
deriving DecidableEq, Repr

/-- `update_lib`.  Inputs beyond `force`: the environment token, the
current `version.txt` content, the time abstractions shared with
`should_check_update` and `save_local_version`, the endpoint's response,
whether `download_file` would succeed, and the process-constant
`CURRENT_DEPENDENCY_FILENAME`. -/
def update_lib (force : Bool) (githubToken : Option String)
    (fileContent : Option String) (parseTs : String → Option Int) (now : Int)
    (nowIso : String) (resp : Response) (dlSuccess : Bool)
    (dependencyFilename : String) : UpdateOutcome :=
  if !force && !(should_check_update parseTs now fileContent) then
    ⟨true, false, [], none, none⟩
  else
    match (get_latest_release githubToken fileContent resp).result with
    | none => ⟨true, true, [], none, none⟩
    | some (rel, etag) =>
      let latest_version := rel.tag_name
      let last_modified := rel.published_at.getD nowIso
      let local_info := fileContent.bind read_local_version
      if !force && version_matches local_info latest_version then
        ⟨true, true, [], some (save_content latest_version last_modified nowIso etag), none⟩
      else
        let dependency_base := rsplitStem dependencyFilename
        match rel.assets.find? (fun a => pyStartsWith a.name dependency_base) with
        | some a =>
          if dlSuccess then
            ⟨true, true, [a.browser_download_url],
             some (save_content latest_version last_modified nowIso etag), none⟩
          else
            ⟨false, true, [a.browser_download_url], none, none⟩
        | none =>
          ⟨false, true, [], none, some (rel.assets.map (fun a => a.name))⟩

/-! ## Helper lemmas -/

theorem consHead_cons (c : Char) (h : List Char) (t : List (List Char)) :
    consHead c (h :: t) = (c :: h) :: t := rfl

theorem splitLinesCore_cons_not_break (x : Char) (xs : List Char)
    (hx : isLineBreak x = false) :
    splitLinesCore (x :: xs) = consHead x (splitLinesCore xs) := by
  have hr : ¬ x = '\r' := by
    intro h
    rw [h] at hx
    simp [isLineBreak] at hx
  cases xs with
  | nil => simp [splitLinesCore, consHead, hx]
  | cons y ys =>
    have : ¬ (x = '\r' ∧ y = '\n') := fun h => hr h.1
    simp [splitLinesCore, hx, this]

theorem splitLinesCore_nl_cons (xs : List Char) :
    splitLinesCore ('\n' :: xs) = [] :: splitLinesCore xs := by
  cases xs with
  | nil => simp [splitLinesCore, isLineBreak]
  | cons y ys =>
    have h1 : ¬ ('\n' = '\r' ∧ y = '\n') := fun h => by cases h.1
    simp [splitLinesCore, h1, isLineBreak]

theorem splitLinesCore_no_break (a : List Char)
    (ha : ∀ c ∈ a, isLineBreak c = false) :
    splitLinesCore a = [a] := by
  induction a with
  | nil => rfl
  | cons x xs ih =>
    rw [splitLinesCore_cons_not_break x xs (ha x (by simp)),
        ih (fun c hc => ha c (by simp [hc]))]
    rfl

theorem splitLinesCore_append_nl (a r : List Char)
    (ha : ∀ c ∈ a, isLineBreak c = false) :
    splitLinesCore (a ++ '\n' :: r) = a :: splitLinesCore r := by
  induction a with
  | nil => simpa using splitLinesCore_nl_cons r
  | cons x xs ih =>
    rw [List.cons_append,
        splitLinesCore_cons_not_break x _ (ha x (by simp)),
        ih (fun c hc => ha c (by simp [hc])), consHead_cons]

theorem noBreakS_mem {s : String} (h : noBreakS s = true) :
    ∀ c ∈ s.data, isLineBreak c = false := by
  intro c hc
  have := List.all_eq_true.mp h c hc
  simpa using this

theorem data_ne_nil_of_ne_empty {s : String} (h : s ≠ "") : s.data ≠ [] := by
  intro hd
  apply h
  cases s with
  | mk l => cases hd; rfl

theorem keyIn_linesToDict {lines : List String} {d : VDict} {k : String}
    (h : linesToDict lines = some d)
    (hk : k = "version" ∨ k = "last_modified" ∨ k = "last_check" ∨ k = "Etag") :
    keyIn d k = true := by
  unfold linesToDict at h
  split at h
  · cases h
    rcases hk with rfl | rfl | rfl | rfl <;> simp [keyIn]
  · cases h

theorem get_last_check_linesToDict {lines : List String} {d : VDict}
    (h : linesToDict lines = some d) :
    VDict.get d "last_check" = some (lines.getD 2 "") := by
  unfold linesToDict at h
  split at h
  · cases h
    simp [VDict.get, List.find?]
  · cases h

/-! ## Claims -/

/-- C4: for every (OS, arch) pair in the spec's mapping table,
`get_dependency_filename` returns exactly the documented literal
filename, defaults to the amd64 variant for unlisted architectures of a
known OS, and fails with the "Unsupported platform" error for every
other OS.  Determinism and absence of other effects are inherent in the
embedding of the resolver as a pure function of `(system, machine)`. -/
theorem get_dependency_filename_table :
    (∀ m, (m = "amd64" ∨ m = "x86_64") →
      get_dependency_filename "windows" m = Except.ok "tls-client-windows-amd64.dll") ∧
    (∀ m, (m = "x86" ∨ m = "i386") →
      get_dependency_filename "windows" m = Except.ok "tls-client-windows-386.dll") ∧
    (∀ m, m ≠ "amd64" → m ≠ "x86_64" → m ≠ "x86" → m ≠ "i386" →
      get_dependency_filename "windows" m = Except.ok "tls-client-windows-amd64.dll") ∧
    (∀ m, (m = "amd64" ∨ m = "x86_64") →
      get_dependency_filename "linux" m = Except.ok "tls-client-linux-amd64.so") ∧
    (∀ m, (m = "arm64" ∨ m = "aarch64") →
      get_dependency_filename "linux" m = Except.ok "tls-client-linux-arm64.so") ∧
    (∀ m, m ≠ "amd64" → m ≠ "x86_64" → m ≠ "arm64" → m ≠ "aarch64" →
      get_dependency_filename "linux" m = Except.ok "tls-client-linux-amd64.so") ∧
    (∀ m, (m = "arm64" ∨ m = "aarch64") →
      get_dependency_filename "darwin" m = Except.ok "tls-client-darwin-arm64.dylib") ∧
    (∀ m, m ≠ "arm64" → m ≠ "aarch64" →
      get_dependency_filename "darwin" m = Except.ok "tls-client-darwin-amd64.dylib") ∧
    (∀ s m, s ≠ "windows" → s ≠ "linux" → s ≠ "darwin" →
      get_dependency_filename s m = Except.error ("Unsupported platform: " ++ s)) := by
  refine ⟨?_, ?_, ?_, ?_, ?_, ?_, ?_, ?_, ?_⟩
  · intro m hm; rcases hm with rfl | rfl <;> rfl
  · intro m hm; rcases hm with rfl | rfl <;> rfl
  · intro m h1 h2 h3 h4; simp [get_dependency_filename, h1, h2, h3, h4]
  · intro m hm; rcases hm with rfl | rfl <;> rfl
  · intro m hm; rcases hm with rfl | rfl <;> rfl
  · intro m h1 h2 h3 h4; simp [get_dependency_filename, h1, h2, h3, h4]
  · intro m hm; rcases hm with rfl | rfl <;> rfl
  · intro m h1 h2; simp [get_dependency_filename, h1, h2]
  · intro s m h1 h2 h3; simp [get_dependency_filename, h1, h2, h3]

/-- Witness for C4 at concrete inputs: an unlisted windows architecture
falls back to the amd64 default, and an unknown OS yields the error. -/
theorem get_dependency_filename_table_witness :
    get_dependency_filename "windows" "riscv" = Except.ok "tls-client-windows-amd64.dll" ∧
    get_dependency_filename "plan9" "amd64" = Except.error ("Unsupported platform: " ++ "plan9") :=
  ⟨get_dependency_filename_table.2.2.1 "riscv"
      (by decide) (by decide) (by decide) (by decide),
   (get_dependency_filename_table.2.2.2.2.2.2.2.2) "plan9" "amd64"
      (by decide) (by decide) (by decide)⟩

/-- C1: whenever `dest_path` holds bytes `b` before the call and the run
of `download_file` fails while streaming the body or while moving the
temp file onto `dest_path` (the failure points of steps 2–3),
`download_file` returns `false` and afterwards `dest_path` again holds
exactly `b` (restored from the backup copy) — in particular it is not
missing and not truncated. -/
theorem download_file_restores_dest (fs : FS) (b : List Nat) (ev : DlEvent)
    (hdest : fs.dest = some b)
    (hfail : (∃ p, ev = DlEvent.streamFail p) ∨ (∃ c, ev = DlEvent.moveFail c)) :
    (download_file fs ev).1 = false ∧ (download_file fs ev).2.dest = some b := by
  rcases hfail with ⟨p, rfl⟩ | ⟨c, rfl⟩ <;>
    simp [download_file, makeBackup, restoreBackup, hdest]

/-- Witness for C1: a mid-stream failure with `dest_path` holding
`[1, 2, 3]` returns `false` and leaves `[1, 2, 3]` in place. -/
theorem download_file_restores_dest_witness :
    (download_file ⟨some [1, 2, 3], none, none⟩ (DlEvent.streamFail [9])).1 = false ∧
    (download_file ⟨some [1, 2, 3], none, none⟩ (DlEvent.streamFail [9])).2.dest = some [1, 2, 3] :=
  download_file_restores_dest ⟨some [1, 2, 3], none, none⟩ [1, 2, 3]
    (DlEvent.streamFail [9]) rfl (Or.inl ⟨[9], rfl⟩)

/-- C7: a run of `update_lib` with `force = false` in which
`should_check_update` answers `false` returns success, issues no
metadata request and no download (no network call of any kind), writes
nothing to `version.txt`, and never touches the destination binary. -/
theorem update_lib_throttled (githubToken : Option String)
    (fileContent : Option String) (parseTs : String → Option Int) (now : Int)
    (nowIso : String) (resp : Response) (dlSuccess : Bool) (depFilename : String)
    (hsc : should_check_update parseTs now fileContent = false) :
    update_lib false githubToken fileContent parseTs now nowIso resp dlSuccess depFilename
      = ⟨true, false, [], none, none⟩ := by
  simp [update_lib, hsc]

/-- Witness for C7: a record checked at the very moment stored in it
(elapsed time 0 ≤ 24 h) throttles the run. -/
theorem update_lib_throttled_witness :
    update_lib false none (some "v1\nlm\nT")
      (fun s => if s = "T" then some 0 else none) 0 "NOW"
      Response.notModified true "tls-client-linux-amd64.so"
      = ⟨true, false, [], none, none⟩ :=
  update_lib_throttled none (some "v1\nlm\nT")
    (fun s => if s = "T" then some 0 else none) 0 "NOW"
    Response.notModified true "tls-client-linux-amd64.so" (by decide)

/-- C2 counterexample: with a stored record and a 304 Not Modified
response, `update_lib` performs no write to `version.txt` at all —
`saved = none` — refuting the claim that an updated `last_check` is
persisted on the 304 path (the code returns `True` straight from
`get_latest_release`'s `None` without calling `save_local_version`). -/
theorem update_lib_304_persists_nothing :
    ¬ ∃ c, (update_lib false none (some "v1\nlm\nT") (fun _ => none) 0 "NOW"
        Response.notModified true "tls-client-linux-amd64.so").saved = some c := by
  intro hx
  obtain ⟨c, hc⟩ := hx
  have h : (update_lib false none (some "v1\nlm\nT") (fun _ => none) 0 "NOW"
      Response.notModified true "tls-client-linux-amd64.so").saved = none := by decide
  rw [h] at hc
  cases hc

/-- C2 (amended): in every run of `update_lib` that reaches the network
(forced, or the throttle allows a check) and receives HTTP 304, the
orchestrator performs no download and returns success, but persists
nothing: `version.txt` is left entirely untouched — `last_check`
included. -/
theorem update_lib_304_no_write (force : Bool) (githubToken : Option String)
    (fileContent : Option String) (parseTs : String → Option Int) (now : Int)
    (nowIso : String) (dlSuccess : Bool) (depFilename : String)
    (hrun : force = true ∨ should_check_update parseTs now fileContent = true) :
    update_lib force githubToken fileContent parseTs now nowIso
      Response.notModified dlSuccess depFilename
      = ⟨true, true, [], none, none⟩ := by
  rcases hrun with rfl | hs
  · simp [update_lib, get_latest_release]
  · simp [update_lib, get_latest_release, hs]

/-- Witness for amended C2: concrete 304 run with an over-24h-old
record. -/
theorem update_lib_304_no_write_witness :
    update_lib false none (some "v1\nlm\nT")
      (fun s => if s = "T" then some 0 else none) 100000 "NOW"
      Response.notModified true "tls-client-linux-amd64.so"
      = ⟨true, true, [], none, none⟩ :=
  update_lib_304_no_write false none (some "v1\nlm\nT")
    (fun s => if s = "T" then some 0 else none) 100000 "NOW" true
    "tls-client-linux-amd64.so" (Or.inr (by decide))

/-- C3 counterexample: the value `get_latest_release` hands the caller
for a release listing zero assets is the very same `None` it hands for
HTTP 304 — the two outcomes are not distinguishable by the caller,
refuting the claimed distinctness. -/
theorem get_latest_release_zero_assets_indistinct :
    (get_latest_release none none
        (Response.ok ⟨"v1", some "P", []⟩ (some "E"))).result
      = (get_latest_release none none Response.notModified).result := rfl

/-- C3 (amended): a fetch whose response lists zero assets yields
`none` — the same result value HTTP 304 produces, so the caller cannot
distinguish them; in that case the orchestrator returns success without
writing any field of the record (`version`, `last_modified` and
`last_check` all untouched, since no write happens at all) and without
attempting any download. -/
theorem update_lib_zero_assets (force : Bool) (githubToken : Option String)
    (fileContent : Option String) (parseTs : String → Option Int) (now : Int)
    (nowIso : String) (dlSuccess : Bool) (depFilename : String)
    (rel : Release) (etag : Option String)
    (hassets : rel.assets = [])
    (hrun : force = true ∨ should_check_update parseTs now fileContent = true) :
    (get_latest_release githubToken fileContent (Response.ok rel etag)).result = none ∧
    update_lib force githubToken fileContent parseTs now nowIso
      (Response.ok rel etag) dlSuccess depFilename
      = ⟨true, true, [], none, none⟩ := by
  constructor
  · simp [get_latest_release, hassets]
  · rcases hrun with rfl | hs
    · simp [update_lib, get_latest_release, hassets]
    · simp [update_lib, get_latest_release, hassets, hs]

/-- Witness for amended C3: concrete zero-assets run with no local
record (`should_check_update` is `true`). -/
theorem update_lib_zero_assets_witness :
    (get_latest_release none none
        (Response.ok ⟨"v1", some "P", []⟩ (some "E"))).result = none ∧
    update_lib false none none (fun _ => none) 0 "NOW"
      (Response.ok ⟨"v1", some "P", []⟩ (some "E")) true
      "tls-client-linux-amd64.so"
      = ⟨true, true, [], none, none⟩ :=
  update_lib_zero_assets false none none (fun _ => none) 0 "NOW" true
    "tls-client-linux-amd64.so" ⟨"v1", some "P", []⟩ (some "E") rfl
    (Or.inr (by decide))

/-- C8: in an unforced run where the check is due, the fetched release
is usable (non-empty asset list) and its tag equals the version stored
in the local record, `update_lib` performs no download, persists a
refreshed record — the stored version (= the tag) and the fetched
`published_at`/Etag, with the fresh `nowIso` as `last_check` — and
returns success. -/
theorem update_lib_same_version (githubToken : Option String)
    (fileContent : Option String) (parseTs : String → Option Int) (now : Int)
    (nowIso : String) (dlSuccess : Bool) (depFilename : String)
    (rel : Release) (etag : Option String) (d : VDict)
    (hsc : should_check_update parseTs now fileContent = true)
    (hassets : rel.assets ≠ [])
    (hread : fileContent.bind read_local_version = some d)
    (hver : VDict.get d "version" = some rel.tag_name) :
    update_lib false githubToken fileContent parseTs now nowIso
      (Response.ok rel etag) dlSuccess depFilename
      = ⟨true, true, [],
         some (save_content rel.tag_name (rel.published_at.getD nowIso) nowIso etag),
         none⟩ := by
  have hne : rel.assets.isEmpty = false := by
    cases h : rel.assets with
    | nil => exact absurd h hassets
    | cons a as => simp
  simp [update_lib, get_latest_release, hsc, hne, version_matches, hread, hver]

/-- Witness for C8: stored version `v1`, remote tag `v1`, stale record. -/
theorem update_lib_same_version_witness :
    update_lib false none (some "v1\nlm\nT") (fun _ => none) 0 "NOW"
      (Response.ok ⟨"v1", some "P", [⟨"tls-client-linux-amd64-xgo.so", "u"⟩]⟩ (some "E"))
      true "tls-client-linux-amd64.so"
      = ⟨true, true, [], some "v1\nP\nNOW\nE", none⟩ :=
  update_lib_same_version none (some "v1\nlm\nT") (fun _ => none) 0 "NOW" true
    "tls-client-linux-amd64.so"
    ⟨"v1", some "P", [⟨"tls-client-linux-amd64-xgo.so", "u"⟩]⟩ (some "E")
    [("version", some "v1"), ("last_modified", some "lm"),
     ("last_check", some "T"), ("Etag", none)]
    (by decide) (by decide) (by decide) (by decide)

/-- C9: when an update is attempted (metadata fetched with a non-empty
asset list, and the run is forced or the stored version does not match),
`update_lib` selects the first asset in listed order whose name starts
with the resolved target filename's extension-stripped stem and passes
only that one to `download_file`; if no asset name starts with the stem,
it returns failure and logs the available asset names. -/
theorem update_lib_asset_selection (force : Bool) (githubToken : Option String)
    (fileContent : Option String) (parseTs : String → Option Int) (now : Int)
    (nowIso : String) (dlSuccess : Bool) (depFilename : String)
    (rel : Release) (etag : Option String)
    (hrun : force = true ∨ should_check_update parseTs now fileContent = true)
    (hassets : rel.assets ≠ [])
    (hnomatch : (!force &&
        version_matches (fileContent.bind read_local_version) rel.tag_name) = false) :
    (∀ a, rel.assets.find? (fun a => pyStartsWith a.name (rsplitStem depFilename)) = some a →
      (update_lib force githubToken fileContent parseTs now nowIso
        (Response.ok rel etag) dlSuccess depFilename).downloads
        = [a.browser_download_url]) ∧
    (rel.assets.find? (fun a => pyStartsWith a.name (rsplitStem depFilename)) = none →
      (update_lib force githubToken fileContent parseTs now nowIso
        (Response.ok rel etag) dlSuccess depFilename).success = false ∧
      (update_lib force githubToken fileContent parseTs now nowIso
        (Response.ok rel etag) dlSuccess depFilename).loggedAssets
        = some (rel.assets.map (fun a => a.name))) := by
  have hne : rel.assets.isEmpty = false := by
    cases h : rel.assets with
    | nil => exact absurd h hassets
    | cons a as => simp
  have hthr : (!force && !(should_check_update parseTs now fileContent)) = false := by
    rcases hrun with rfl | hs
    · rfl
    · simp [hs]
  constructor
  · intro a hfind
    cases dlSuccess <;>
      simp [update_lib, get_latest_release, hthr, hne, hnomatch, hfind]
  · intro hfind
    simp [update_lib, get_latest_release, hthr, hne, hnomatch, hfind]

/-- Witness for C9, both branches: a matching-stem asset placed second
is skipped in favour of the first match in listed order, and an asset
list with no matching stem yields failure plus the logged names. -/
theorem update_lib_asset_selection_witness :
    (update_lib true none none (fun _ => none) 0 "NOW"
      (Response.ok ⟨"v2", some "P",
        [⟨"other.bin", "u0"⟩,
         ⟨"tls-client-linux-amd64-first.so", "u1"⟩,
         ⟨"tls-client-linux-amd64-second.so", "u2"⟩]⟩ (some "E"))
      true "tls-client-linux-amd64.so").downloads = ["u1"] ∧
    ((update_lib true none none (fun _ => none) 0 "NOW"
      (Response.ok ⟨"v2", some "P", [⟨"other.bin", "u0"⟩]⟩ (some "E"))
      true "tls-client-linux-amd64.so").success = false ∧
     (update_lib true none none (fun _ => none) 0 "NOW"
      (Response.ok ⟨"v2", some "P", [⟨"other.bin", "u0"⟩]⟩ (some "E"))
      true "tls-client-linux-amd64.so").loggedAssets = some ["other.bin"]) :=
  ⟨(update_lib_asset_selection true none none (fun _ => none) 0 "NOW" true
      "tls-client-linux-amd64.so"
      ⟨"v2", some "P",
        [⟨"other.bin", "u0"⟩,
         ⟨"tls-client-linux-amd64-first.so", "u1"⟩,
         ⟨"tls-client-linux-amd64-second.so", "u2"⟩]⟩ (some "E")
      (Or.inl rfl) (by decide) (by decide)).1
      ⟨"tls-client-linux-amd64-first.so", "u1"⟩ (by decide),
   (update_lib_asset_selection true none none (fun _ => none) 0 "NOW" true
      "tls-client-linux-amd64.so"
      ⟨"v2", some "P", [⟨"other.bin", "u0"⟩]⟩ (some "E")
      (Or.inl rfl) (by decide) (by decide)).2 (by decide)⟩

/-- C10: whenever the record file splits into at least three lines,
`read_local_version` succeeds and the returned dict always carries the
`Etag` key (with value `none` when there is no fourth line); hence the
stored-token check in `get_latest_release` succeeds for every existing
record, and the `If-None-Match` header entry is present — set to a
`none` value when no cache token was ever stored. -/
theorem read_always_defines_etag (content : String) (tok : Option String)
    (resp : Response) (h3 : 3 ≤ (splitlines content).length) :
    ∃ d, read_local_version content = some d ∧ keyIn d "Etag" = true ∧
      ("If-None-Match", VDict.get d "Etag")
        ∈ (get_latest_release tok (some content) resp).headers ∧
      ((splitlines content).length = 3 → VDict.get d "Etag" = none) := by
  have hread : read_local_version content =
      some [("version", some ((splitlines content).getD 0 "")),
            ("last_modified", some ((splitlines content).getD 1 "")),
            ("last_check", some ((splitlines content).getD 2 "")),
            ("Etag", if 4 ≤ (splitlines content).length
                     then some ((splitlines content).getD 3 "") else none)] := by
    simp [read_local_version, linesToDict, h3]
  refine ⟨_, hread, by simp [keyIn], ?_, ?_⟩
  · have hb : (some content).bind read_local_version =
        some [("version", some ((splitlines content).getD 0 "")),
              ("last_modified", some ((splitlines content).getD 1 "")),
              ("last_check", some ((splitlines content).getD 2 "")),
              ("Etag", if 4 ≤ (splitlines content).length
                       then some ((splitlines content).getD 3 "") else none)] := hread
    simp only [get_latest_release]
    rw [hb]
    simp only [build_headers]
    rw [if_pos (by simp [keyIn])]
    exact List.mem_append_right _ (by simp)
  · intro h3eq
    have h4 : ¬ 4 ≤ (splitlines content).length := by omega
    simp [VDict.get, List.find?, h4]

/-- Witness for C10: a three-line file — the dict defines `Etag` with
value `none` and the `If-None-Match` entry carries that `none`. -/
theorem read_always_defines_etag_witness :
    ∃ d, read_local_version "a\nb\nc" = some d ∧ keyIn d "Etag" = true ∧
      ("If-None-Match", VDict.get d "Etag")
        ∈ (get_latest_release none (some "a\nb\nc") Response.notModified).headers ∧
      ((splitlines "a\nb\nc").length = 3 → VDict.get d "Etag" = none) :=
  read_always_defines_etag "a\nb\nc" none Response.notModified (by decide)

/-- C6: `should_check_update` answers `true` exactly when no record is
readable (file absent, unreadable, or fewer than three lines), or the
stored `last_check` does not parse to a comparable timestamp, or more
than the 24-hour interval has elapsed since it; otherwise `false`. -/
theorem should_check_update_spec (parseTs : String → Option Int) (now : Int)
    (fileContent : Option String) :
    should_check_update parseTs now fileContent = true ↔
      (fileContent.bind read_local_version = none ∨
       ∃ d, fileContent.bind read_local_version = some d ∧
         ((VDict.get d "last_check").bind parseTs = none ∨
          ∃ t, (VDict.get d "last_check").bind parseTs = some t ∧
            now - t > CHECK_INTERVAL_SECONDS)) := by
  cases hr : fileContent.bind read_local_version with
  | none => simp [should_check_update, hr]
  | some d =>
    have hk : keyIn d "last_check" = true := by
      cases fileContent with
      | none => cases hr
      | some c =>
        exact keyIn_linesToDict (by simpa [read_local_version] using hr)
          (Or.inr (Or.inr (Or.inl rfl)))
    simp only [should_check_update, hr, hk, Bool.true_eq_false, if_false]
    cases hp : (VDict.get d "last_check").bind parseTs with
    | none =>
      exact iff_of_true rfl (Or.inr ⟨d, rfl, Or.inl hp⟩)
    | some t =>
      constructor
      · intro h
        exact Or.inr ⟨d, rfl, Or.inr ⟨t, hp, of_decide_eq_true h⟩⟩
      · rintro (h | ⟨d', hd', h'⟩)
        · cases h
        · cases hd'
          rcases h' with h' | ⟨t', ht', hgt⟩
          · rw [hp] at h'; cases h'
          · rw [hp] at ht'
            cases ht'
            exact decide_eq_true hgt

theorem data_save_content_none (v m n : String) :
    (save_content v m n none).data
      = v.data ++ '\n' :: (m.data ++ '\n' :: n.data) := by
  show v.data ++ "\n".data ++ m.data ++ "\n".data ++ n.data ++ "".data
      = v.data ++ '\n' :: (m.data ++ '\n' :: n.data)
  simp [List.append_assoc]

theorem data_save_content_some (v m n s : String) (hs : s ≠ "") :
    (save_content v m n (some s)).data
      = v.data ++ '\n' :: (m.data ++ '\n' :: (n.data ++ '\n' :: s.data)) := by
  show (v ++ "\n" ++ m ++ "\n" ++ n ++ (if s = "" then "" else "\n" ++ s)).data
      = v.data ++ '\n' :: (m.data ++ '\n' :: (n.data ++ '\n' :: s.data))
  rw [if_neg hs]
  show v.data ++ "\n".data ++ m.data ++ "\n".data ++ n.data ++ ("\n".data ++ s.data)
      = v.data ++ '\n' :: (m.data ++ '\n' :: (n.data ++ '\n' :: s.data))
  simp [List.append_assoc]

theorem getLast?_three (a b c : List Char) (hc : c ≠ []) :
    (a ++ '\n' :: (b ++ '\n' :: c)).getLast? = c.getLast? := by
  rw [List.getLast?_append_cons, ← List.singleton_append,
      ← List.append_assoc, List.getLast?_append_cons,
      ← List.singleton_append, List.getLast?_append_of_ne_nil _ hc]

theorem splitlines_save_none (v m n : String)
    (hv : noBreakS v = true) (hm : noBreakS m = true)
    (hn : noBreakS n = true) (hne : n ≠ "") :
    splitlines (save_content v m n none) = [v, m, n] := by
  have hnd : n.data ≠ [] := data_ne_nil_of_ne_empty hne
  have hD := data_save_content_none v m n
  have hlastn : n.data.getLast? = some (n.data.getLast hnd) :=
    List.getLast?_eq_getLast n.data hnd
  have hcb : isLineBreak (n.data.getLast hnd) = false :=
    noBreakS_mem hn _ (List.getLast_mem hnd)
  unfold splitlines
  rw [hD, if_neg (by simp), getLast?_three _ _ _ hnd, hlastn]
  rw [if_neg (by simp [hcb])]
  rw [splitLinesCore_append_nl _ _ (noBreakS_mem hv),
      splitLinesCore_append_nl _ _ (noBreakS_mem hm),
      splitLinesCore_no_break _ (noBreakS_mem hn)]
  rfl

theorem splitlines_save_some (v m n s : String)
    (hv : noBreakS v = true) (hm : noBreakS m = true)
    (hn : noBreakS n = true) (hs : noBreakS s = true) (hse : s ≠ "") :
    splitlines (save_content v m n (some s)) = [v, m, n, s] := by
  have hsd : s.data ≠ [] := data_ne_nil_of_ne_empty hse
  have hD := data_save_content_some v m n s hse
  have hlasts : s.data.getLast? = some (s.data.getLast hsd) :=
    List.getLast?_eq_getLast s.data hsd
  have hcb : isLineBreak (s.data.getLast hsd) = false :=
    noBreakS_mem hs _ (List.getLast_mem hsd)
  have hlastD : (v.data ++ '\n' :: (m.data ++ '\n' :: (n.data ++ '\n' :: s.data))).getLast?
      = s.data.getLast? := by
    rw [List.getLast?_append_cons, ← List.singleton_append, ← List.append_assoc,
        List.getLast?_append_cons, ← List.singleton_append, ← List.append_assoc,
        List.getLast?_append_cons, ← List.singleton_append,
        List.getLast?_append_of_ne_nil _ hsd]
  unfold splitlines
  rw [hD, if_neg (by simp), hlastD, hlasts]
  rw [if_neg (by simp [hcb])]
  rw [splitLinesCore_append_nl _ _ (noBreakS_mem hv),
      splitLinesCore_append_nl _ _ (noBreakS_mem hm),
      splitLinesCore_append_nl _ _ (noBreakS_mem hn),
      splitLinesCore_no_break _ (noBreakS_mem hs)]
  rfl

/-- C5 counterexample: writing with the cache token present but empty
(`etag = some ""`, a legal `Optional[str]` value) hits Python's
truthiness test `if etag:` — the token line is not written, and reading
back yields `Etag = none`, not `some ""`; the write/read round trip of
the claim fails for this token. -/
theorem roundtrip_fails_on_empty_etag :
    read_local_version (save_content "v1" "lm" "T" (some "")) ≠
      some [("version", some "v1"), ("last_modified", some "lm"),
            ("last_check", some "T"), ("Etag", some "")] := by decide

/-- C5 (amended): for every version `v`, last-modified `m` and cache
token `t` that contain no line-break characters, with `t` either absent
or non-empty, writing via `save_local_version` (with write-time
timestamp `nowIso`, itself non-empty and line-break-free) and then
reading via `read_local_version` reproduces version = `v`,
last_modified = `m` and `Etag` = `t` exactly, with `last_check` equal to
the write-time timestamp `nowIso`. -/
theorem save_then_read_roundtrip (v m nowIso : String) (e : Option String)
    (hv : noBreakS v = true) (hm : noBreakS m = true)
    (hn : noBreakS nowIso = true) (hne : nowIso ≠ "")
    (he : ∀ s, e = some s → (s ≠ "" ∧ noBreakS s = true)) :
    read_local_version (save_content v m nowIso e) =
      some [("version", some v), ("last_modified", some m),
            ("last_check", some nowIso), ("Etag", e)] := by
  rcases e with _ | s
  · rw [read_local_version, splitlines_save_none v m nowIso hv hm hn hne]
    simp [linesToDict]
  · obtain ⟨hse, hs⟩ := he s rfl
    rw [read_local_version, splitlines_save_some v m nowIso s hv hm hn hs hse]
    simp [linesToDict]

/-- Witness for amended C5 at concrete values, cache token present. -/
theorem save_then_read_roundtrip_witness :
    read_local_version (save_content "v2.1.0" "2024-01-01" "2024-01-02T00:00:00+00:00"
        (some "W/abc")) =
      some [("version", some "v2.1.0"), ("last_modified", some "2024-01-01"),
            ("last_check", some "2024-01-02T00:00:00+00:00"), ("Etag", some "W/abc")] :=
  save_then_read_roundtrip "v2.1.0" "2024-01-01" "2024-01-02T00:00:00+00:00"
    (some "W/abc") (by decide) (by decide) (by decide) (by decide)
    (fun s hs => by cases hs; exact ⟨by decide, by decide⟩)

end TlsClientUpdate
